import Mathlib

/-!
Verification of the invoice API contract of
`src/invoice-management-system/invoices-service/src/invoices/routers/invoices-router/invoices-router.ts`.

The router is embedded shallowly: each Express route handler becomes a pure
function over an abstract `InvoicesService` collaborator.  A handler returns
an `Except ThrownError Response` (the value passed to `res` on success, or
the error forwarded to `next(err)` on failure) together with the list of
collaborator calls it made, in order, so that "the service is never called"
and "no further calls after a failure" are stated directly.
-/

/-- A file from `express-fileupload`: raw bytes plus the reported MIME type
(the library exposes the latter under the lowercase field `mimetype`). -/
structure UploadedFile where
  data : List Nat
  mimetype : String
  deriving DecidableEq, Repr

/-- An invoice record as the service layer returns it (identifier, status,
due date, vendor).  The router passes invoices through opaquely. -/
structure Invoice where
  id : String
  status : String
  dueDate : String
  vendorId : String
  deriving DecidableEq, Repr

/-- An invoice document: binary content plus MIME type.  This is both the
payload of `createInvoice` and the value returned by
`downloadInvoiceDocumentFile`. -/
structure InvoiceDocument where
  content : List Nat
  mimeType : String
  deriving DecidableEq, Repr

/-- Argument object of `InvoicesService.createInvoice`. -/
structure CreateInvoiceArgs where
  document : InvoiceDocument
  deriving DecidableEq, Repr

/-- Direction of an `orderBy` clause, `'asc' | 'desc'` in the source. -/
inductive OrderDirection
  | asc
  | desc
  deriving DecidableEq, Repr

/-- A parsed `orderBy` clause `{field, direction}`; the source's type
restricts `field` to the literal `'dueDate'` but stores the string. -/
structure OrderBy where
  field : String
  direction : OrderDirection
  deriving DecidableEq, Repr

/-- Argument object of `InvoicesService.listInvoices`; `ids`, `statuses`
and `vendorIds` may be absent (`undefined` is forwarded as-is). -/
structure ListInvoicesArgs where
  ids : Option (List String)
  statuses : Option (List String)
  vendorIds : Option (List String)
  orderBy : List OrderBy
  deriving DecidableEq, Repr

/-- Argument object of `InvoicesService.updateInvoice`: the `{status}`
destructured from the request body, possibly absent. -/
structure UpdateInvoiceArgs where
  status : Option String
  deriving DecidableEq, Repr

/-- The errors the router hands to `next(err)`: `RangeError` with a message,
a bare `new Error()` (the unrecognized `orderBy` field), `new Error(msg)`
(the unmappable MIME type), `NotFoundError` with a message, and a rejection
by the `celebrate` validation middleware before the handler runs. -/
inductive ThrownError
  | rangeError (message : String)
  | emptyError
  | errorWithMessage (message : String)
  | notFoundError (message : String)
  | celebrateError
  deriving DecidableEq, Repr

/-- The spec's error taxonomy (section 7). -/
inductive ErrorKind
  | invalidRequest
  | notFound
  | invalidState
  | unhandled
  deriving DecidableEq, Repr

/-- Modelled from the spec: the generic top-level error handler that maps
thrown errors to the taxonomy of section 7 is not under `src/`.  Per the
spec, validation failures (file count via `RangeError`, `celebrate`
rejections, the bare `Error` thrown for an unrecognized `orderBy` field)
are `InvalidRequest`; `NotFoundError` is `NotFound`; the
`Invalid mimeType ...` error is the internal-inconsistency kind
`InvalidState`. -/
def errorKind : ThrownError → ErrorKind
  | .rangeError _ => .invalidRequest
  | .emptyError => .invalidRequest
  | .celebrateError => .invalidRequest
  | .notFoundError _ => .notFound
  | .errorWithMessage _ => .invalidState

/-- A collaborator call made by a handler, with its arguments. -/
inductive ServiceCall
  | createInvoice (args : CreateInvoiceArgs)
  | listInvoices (args : ListInvoicesArgs)
  | listCurrencies
  | getInvoiceById (invoiceId : String)
  | downloadInvoiceDocumentFile (invoiceId : String)
  | updateInvoice (invoiceId : String) (args : UpdateInvoiceArgs)
  deriving DecidableEq, Repr

/-- The body a handler sends on success. -/
inductive ResponseBody
  | invoiceJson (invoice : Invoice)
  | invoicesJson (invoices : List Invoice)
  | currenciesJson (currencies : List String)
  | bytes (content : List Nat)
  deriving DecidableEq, Repr

/-- A successful response: status code, headers set via `res.set`, body.
`res.json`/`res.send` default to status 200. -/
structure Response where
  status : Nat
  headers : List (String × String)
  body : ResponseBody
  deriving DecidableEq, Repr

/-- The injected invoice service collaborator.  Each method may fail with an
arbitrary error (a rejected promise), which the handlers forward. -/
structure InvoicesService where
  createInvoice : CreateInvoiceArgs → Except ThrownError Invoice
  listInvoices : ListInvoicesArgs → Except ThrownError (List Invoice)
  listCurrencies : Except ThrownError (List String)
  getInvoiceById : String → Except ThrownError (Option Invoice)
  downloadInvoiceDocumentFile : String → Except ThrownError (Option InvoiceDocument)
  updateInvoice : String → UpdateInvoiceArgs → Except ThrownError Invoice

/-- Result of a handler: the outcome plus the collaborator calls made. -/
abbrev HandlerResult := Except ThrownError Response × List ServiceCall

/-- Hexadecimal digit test, for UUID validation. -/
def isHexDigit (c : Char) : Bool :=
  c.isDigit || (('a' ≤ c) && (c ≤ 'f')) || (('A' ≤ c) && (c ≤ 'F'))

/-- `Joi.string().uuid()`: canonical RFC 4122 textual form, 36 characters,
hyphens at positions 8, 13, 18 and 23, hexadecimal digits elsewhere. -/
def isUuid (s : String) : Bool :=
  let cs := s.toList
  cs.length = 36 &&
    (List.range 36).all fun i =>
      if i = 8 || i = 13 || i = 18 || i = 23 then cs.getD i ' ' = '-'
      else isHexDigit (cs.getD i ' ')

/-- Modelled from the spec: `Object.values(InvoiceStatus)` from
`src/.../invoices/models`, which is not under `src/`.  The spec says the
status enumeration includes at least `created` and subsequent lifecycle
states such as `paid`. -/
def invoiceStatusValues : List String := ["created", "paid"]

/-- The `GET /` query after framework parsing: each key is an optional
array of strings. -/
structure ListQuery where
  ids : Option (List String)
  statuses : Option (List String)
  vendorIds : Option (List String)
  orderBy : Option (List String)
  deriving DecidableEq, Repr

/-- The `celebrate` query schema of `GET /`: `ids` and `vendorIds` are
arrays of UUID strings, `statuses` an array of enumeration values,
`orderBy` an array of arbitrary strings. -/
def validateListQuery (query : ListQuery) : Bool :=
  (match query.ids with
   | none => true
   | some l => l.all isUuid) &&
  (match query.statuses with
   | none => true
   | some l => l.all fun s => invoiceStatusValues.contains s) &&
  (match query.vendorIds with
   | none => true
   | some l => l.all isUuid)

/-- `PATCH /:invoiceId` body after framework parsing. -/
structure PatchBody where
  status : Option String
  deriving DecidableEq, Repr

/-- The `celebrate` body schema of `PATCH /:invoiceId`: `status` is
optional, and if present must be one of the enumeration values. -/
def validatePatchBody (body : PatchBody) : Bool :=
  match body.status with
  | none => true
  | some s => invoiceStatusValues.contains s

/-- The `mime-types` library's `extension` lookup (an external collaborator),
restricted to a finite table of common MIME types; a type outside the table
yields `none`, as the library returns `false` for types without a known
extension. -/
def mimeTypesExtension (mimeType : String) : Option String :=
  List.lookup mimeType
    [("application/pdf", "pdf"), ("image/png", "png"), ("image/jpeg", "jpg"),
     ("text/plain", "txt"), ("application/json", "json"), ("text/html", "html")]

/-- Character-level split, accumulating the current segment in reverse:
the recursion of `jsSplit`. -/
def jsSplitAux (sep : Char) : List Char → List Char → List String
  | [], acc => [String.mk acc.reverse]
  | c :: rest, acc =>
    if c = sep then String.mk acc.reverse :: jsSplitAux sep rest []
    else jsSplitAux sep rest (c :: acc)

/-- JavaScript's `String.prototype.split` with a single-character separator:
`''.split(' ')` is `['']`, and consecutive separators yield empty
segments. -/
def jsSplit (s : String) (sep : Char) : List String :=
  jsSplitAux sep s.toList []

/-- One `orderBy` clause, as the source parses it:
`const [field, direction] = orderByClause.split(' ')` (so `direction` is
absent when there is no second segment), then `field !== 'dueDate'` throws
`new Error()` and a direction other than `'asc'`/`'desc'` throws a
`RangeError`. -/
def parseOrderByClause (orderByClause : String) : Except ThrownError OrderBy :=
  let parts := jsSplit orderByClause ' '
  let field := parts.headD ""
  let direction := parts[1]?
  if field ≠ "dueDate" then
    .error .emptyError
  else if direction = some "asc" then
    .ok ⟨field, .asc⟩
  else if direction = some "desc" then
    .ok ⟨field, .desc⟩
  else
    .error (.rangeError ("Invalid direction in orderBy clause " ++ orderByClause))

/-- `orderByQueryParam.map(...)` with exceptions: the clauses are parsed
left to right and the first failure aborts the whole request. -/
def parseOrderBy : List String → Except ThrownError (List OrderBy)
  | [] => .ok []
  | clause :: rest =>
    match parseOrderByClause clause with
    | .error e => .error e
    | .ok parsed =>
      match parseOrderBy rest with
      | .error e => .error e
      | .ok parsedRest => .ok (parsed :: parsedRest)

/-- `if (orderByQueryParam) { orderBy = orderByQueryParam.map(...) }`:
an absent `orderBy` leaves the empty list (an empty array is truthy in
JavaScript, so it is mapped, yielding the empty list as well). -/
def parseOrderByParam : Option (List String) → Except ThrownError (List OrderBy)
  | none => .ok []
  | some clauses => parseOrderBy clauses

/-- `POST /`: requires exactly one uploaded file, then delegates the file's
bytes and MIME type to `createInvoice` and answers 201 with the created
invoice. -/
def postInvoices (svc : InvoicesService)
    (files : Option (List (String × UploadedFile))) : HandlerResult :=
  match files with
  | none => (.error (.rangeError "No files were uploaded"), [])
  | some [] => (.error (.rangeError "No files were uploaded"), [])
  | some ((_, invoiceFile) :: restFiles) =>
    if restFiles ≠ [] then
      (.error (.rangeError "Must upload a single file"), [])
    else
      let args : CreateInvoiceArgs := ⟨⟨invoiceFile.data, invoiceFile.mimetype⟩⟩
      match svc.createInvoice args with
      | .ok invoice => (.ok ⟨201, [], .invoiceJson invoice⟩, [.createInvoice args])
      | .error e => (.error e, [.createInvoice args])

/-- `GET /`: validates the query, parses `orderBy`, then delegates to
`listInvoices`. -/
def getInvoices (svc : InvoicesService) (query : ListQuery) : HandlerResult :=
  if validateListQuery query then
    match parseOrderByParam query.orderBy with
    | .error e => (.error e, [])
    | .ok orderBy =>
      let args : ListInvoicesArgs := ⟨query.ids, query.statuses, query.vendorIds, orderBy⟩
      match svc.listInvoices args with
      | .ok invoices => (.ok ⟨200, [], .invoicesJson invoices⟩, [.listInvoices args])
      | .error e => (.error e, [.listInvoices args])
  else
    (.error .celebrateError, [])

/-- `GET /currencies`: delegates to `listCurrencies`. -/
def getCurrencies (svc : InvoicesService) : HandlerResult :=
  match svc.listCurrencies with
  | .ok currencies => (.ok ⟨200, [], .currenciesJson currencies⟩, [.listCurrencies])
  | .error e => (.error e, [.listCurrencies])

/-- `GET /:invoiceId`: `celebrate` requires a UUID; the handler fetches the
invoice and throws `NotFoundError` when the service returns nothing. -/
def getInvoiceByIdRoute (svc : InvoicesService) (invoiceId : String) : HandlerResult :=
  if isUuid invoiceId then
    match svc.getInvoiceById invoiceId with
    | .error e => (.error e, [.getInvoiceById invoiceId])
    | .ok none =>
      (.error (.notFoundError ("Invoice " ++ invoiceId ++ " not found")),
       [.getInvoiceById invoiceId])
    | .ok (some invoice) => (.ok ⟨200, [], .invoiceJson invoice⟩, [.getInvoiceById invoiceId])
  else
    (.error .celebrateError, [])

/-- `GET /:invoiceId/download`: `celebrate` requires a UUID; the handler
fetches the document file, throws `NotFoundError` when absent, resolves the
MIME type to an extension (throwing on failure), and sends the bytes with
Content-Type, Content-Length and Content-Disposition headers. -/
def downloadInvoiceDocument (svc : InvoicesService) (invoiceId : String) : HandlerResult :=
  if isUuid invoiceId then
    match svc.downloadInvoiceDocumentFile invoiceId with
    | .error e => (.error e, [.downloadInvoiceDocumentFile invoiceId])
    | .ok none =>
      (.error (.notFoundError ("Invoice " ++ invoiceId ++ " not found")),
       [.downloadInvoiceDocumentFile invoiceId])
    | .ok (some invoiceDocumentFile) =>
      match mimeTypesExtension invoiceDocumentFile.mimeType with
      | none =>
        (.error (.errorWithMessage
           ("Invalid mimeType " ++ invoiceDocumentFile.mimeType ++
            " for invoice " ++ invoiceId)),
         [.downloadInvoiceDocumentFile invoiceId])
      | some fileExtension =>
        (.ok ⟨200,
           [("Content-Type", invoiceDocumentFile.mimeType),
            ("Content-Length", toString invoiceDocumentFile.content.length),
            ("Content-Disposition",
             "attachment; filename=\"" ++ invoiceId ++ "." ++ fileExtension ++ "\"")],
           .bytes invoiceDocumentFile.content⟩,
         [.downloadInvoiceDocumentFile invoiceId])
  else
    (.error .celebrateError, [])

/-- `PATCH /:invoiceId`: `celebrate` validates only the body (no parameter
schema); the handler delegates `{status}` to `updateInvoice` verbatim. -/
def patchInvoice (svc : InvoicesService) (invoiceId : String)
    (body : PatchBody) : HandlerResult :=
  if validatePatchBody body then
    let args : UpdateInvoiceArgs := ⟨body.status⟩
    match svc.updateInvoice invoiceId args with
    | .ok invoice => (.ok ⟨200, [], .invoiceJson invoice⟩, [.updateInvoice invoiceId args])
    | .error e => (.error e, [.updateInvoice invoiceId args])
  else
    (.error .celebrateError, [])

deriving instance DecidableEq for Except

/-- A UUID-shaped identifier used as concrete test input. -/
def sampleUuid : String := "123e4567-e89b-12d3-a456-426614174000"

/-- A concrete invoice used as collaborator output in concrete runs. -/
def sampleInvoice : Invoice :=
  ⟨sampleUuid, "created", "2024-01-31", "123e4567-e89b-12d3-a456-426614174001"⟩

/-- A concrete uploaded file (PDF magic bytes). -/
def sampleFile : UploadedFile := ⟨[37, 80, 68, 70], "application/pdf"⟩

/-- A concrete PDF document as returned by the service. -/
def pdfDocument : InvoiceDocument := ⟨[37, 80, 68, 70], "application/pdf"⟩

/-- A concrete document whose MIME type has no extension mapping. -/
def unknownMimeDocument : InvoiceDocument := ⟨[1, 2, 3], "application/x-unknown"⟩

/-- A concrete collaborator failure. -/
def boomError : ThrownError := .errorWithMessage "boom"

/-- A service model where every call succeeds. -/
def svcOk : InvoicesService :=
  ⟨fun _ => .ok sampleInvoice,
   fun _ => .ok [sampleInvoice],
   .ok ["CAD", "USD"],
   fun _ => .ok (some sampleInvoice),
   fun _ => .ok (some pdfDocument),
   fun _ _ => .ok sampleInvoice⟩

/-- A service model that finds nothing. -/
def svcEmpty : InvoicesService :=
  ⟨fun _ => .ok sampleInvoice,
   fun _ => .ok [],
   .ok [],
   fun _ => .ok none,
   fun _ => .ok none,
   fun _ _ => .ok sampleInvoice⟩

/-- A service model whose stored document has an unmappable MIME type. -/
def svcUnknownMime : InvoicesService :=
  ⟨fun _ => .ok sampleInvoice,
   fun _ => .ok [],
   .ok [],
   fun _ => .ok none,
   fun _ => .ok (some unknownMimeDocument),
   fun _ _ => .ok sampleInvoice⟩

/-- A service model where every call fails with `boomError`. -/
def svcFail : InvoicesService :=
  ⟨fun _ => .error boomError,
   fun _ => .error boomError,
   .error boomError,
   fun _ => .error boomError,
   fun _ => .error boomError,
   fun _ _ => .error boomError⟩

theorem parseOrderByClause_error_invalidRequest (clause : String) (e : ThrownError)
    (h : parseOrderByClause clause = .error e) :
    errorKind e = ErrorKind.invalidRequest := by
  simp only [parseOrderByClause] at h
  split_ifs at h
  · injection h with h2
    subst h2
    rfl
  · injection h with h2
    subst h2
    rfl

theorem parseOrderBy_error_invalidRequest :
    ∀ (clauses : List String) (e : ThrownError), parseOrderBy clauses = .error e →
      errorKind e = ErrorKind.invalidRequest := by
  intro clauses
  induction clauses with
  | nil => intro e h; simp [parseOrderBy] at h
  | cons clause rest ih =>
    intro e h
    simp only [parseOrderBy] at h
    cases hc : parseOrderByClause clause with
    | error e1 =>
      rw [hc] at h
      simp at h
      subst h
      exact parseOrderByClause_error_invalidRequest clause e1 hc
    | ok parsed =>
      rw [hc] at h
      cases hr : parseOrderBy rest with
      | error e2 =>
        rw [hr] at h
        simp at h
        subst h
        exact ih e2 hr
      | ok parsedRest =>
        rw [hr] at h
        simp at h

theorem parseOrderBy_error_of_mem :
    ∀ (clauses : List String) (clause : String), clause ∈ clauses →
      ∀ e0 : ThrownError, parseOrderByClause clause = .error e0 →
        ∃ e, parseOrderBy clauses = .error e := by
  intro clauses
  induction clauses with
  | nil => intro clause hmem; cases hmem
  | cons c rest ih =>
    intro clause hmem e0 h
    simp only [parseOrderBy]
    cases hc : parseOrderByClause c with
    | error e1 => exact ⟨e1, rfl⟩
    | ok parsed =>
      rcases List.mem_cons.mp hmem with h1 | h1
      · subst h1
        rw [h] at hc
        cases hc
      · obtain ⟨e, he⟩ := ih clause h1 e0 h
        rw [he]
        exact ⟨e, rfl⟩

theorem parseOrderByClause_bad_field (clause : String)
    (h : (jsSplit clause ' ').headD "" ≠ "dueDate") :
    parseOrderByClause clause = .error .emptyError := by
  simp only [parseOrderByClause]
  rw [if_pos h]

theorem parseOrderByClause_bad_direction (clause : String)
    (hf : (jsSplit clause ' ').headD "" = "dueDate")
    (ha : (jsSplit clause ' ')[1]? ≠ some "asc")
    (hd : (jsSplit clause ' ')[1]? ≠ some "desc") :
    parseOrderByClause clause =
      .error (.rangeError ("Invalid direction in orderBy clause " ++ clause)) := by
  simp only [parseOrderByClause]
  rw [if_neg fun hn => hn hf, if_neg ha, if_neg hd]

/-- C1: a CreateInvoice request whose file-upload payload contains zero
files (absent or empty `req.files`) or more than one file fails with an
`InvalidRequest` validation error, and `createInvoice` is never called. -/
theorem createInvoice_rejects_wrong_file_count (svc : InvoicesService)
    (files : Option (List (String × UploadedFile)))
    (h : files = none ∨ ∃ fs, files = some fs ∧ (fs.length = 0 ∨ 1 < fs.length)) :
    (∃ e, (postInvoices svc files).1 = Except.error e ∧
        errorKind e = ErrorKind.invalidRequest) ∧
      (postInvoices svc files).2 = [] := by
  rcases h with rfl | ⟨fs, rfl, hlen⟩
  · exact ⟨⟨.rangeError "No files were uploaded", rfl, rfl⟩, rfl⟩
  · cases fs with
    | nil => exact ⟨⟨.rangeError "No files were uploaded", rfl, rfl⟩, rfl⟩
    | cons p rest =>
      rcases hlen with h0 | h1
      · simp at h0
      · have hne : rest ≠ [] := by
          intro hr
          subst hr
          simp at h1
        obtain ⟨key, invoiceFile⟩ := p
        simp only [postInvoices]
        rw [if_pos hne]
        exact ⟨⟨.rangeError "Must upload a single file", rfl, rfl⟩, rfl⟩

/-- Witness for C1 at a concrete two-file payload. -/
theorem createInvoice_rejects_wrong_file_count_witness :
    (∃ e, (postInvoices svcOk (some [("a", sampleFile), ("b", sampleFile)])).1 =
          Except.error e ∧
        errorKind e = ErrorKind.invalidRequest) ∧
      (postInvoices svcOk (some [("a", sampleFile), ("b", sampleFile)])).2 = [] :=
  createInvoice_rejects_wrong_file_count svcOk _ (Or.inr ⟨_, rfl, Or.inr (by decide)⟩)

/-- C2: a ListInvoices request with an orderBy clause whose first
space-separated token is not `dueDate` fails with an `InvalidRequest`
error, and `listInvoices` is never called. -/
theorem listInvoices_rejects_unknown_orderBy_field (svc : InvoicesService)
    (query : ListQuery) (clauses : List String) (clause : String)
    (hq : query.orderBy = some clauses) (hmem : clause ∈ clauses)
    (hfield : (jsSplit clause ' ').headD "" ≠ "dueDate") :
    (∃ e, (getInvoices svc query).1 = Except.error e ∧
        errorKind e = ErrorKind.invalidRequest) ∧
      (getInvoices svc query).2 = [] := by
  by_cases hv : validateListQuery query = true
  · have hclause := parseOrderByClause_bad_field clause hfield
    obtain ⟨e, he⟩ := parseOrderBy_error_of_mem clauses clause hmem _ hclause
    have hkind := parseOrderBy_error_invalidRequest clauses e he
    have hparam : parseOrderByParam query.orderBy = .error e := by
      rw [hq]
      exact he
    simp only [getInvoices]
    rw [if_pos hv, hparam]
    exact ⟨⟨e, rfl, hkind⟩, rfl⟩
  · simp only [getInvoices]
    rw [if_neg hv]
    exact ⟨⟨.celebrateError, rfl, rfl⟩, rfl⟩

/-- Witness for C2 at the spec's example `orderBy=price asc`. -/
theorem listInvoices_rejects_unknown_orderBy_field_witness :
    (∃ e, (getInvoices svcOk ⟨none, none, none, some ["price asc"]⟩).1 =
          Except.error e ∧
        errorKind e = ErrorKind.invalidRequest) ∧
      (getInvoices svcOk ⟨none, none, none, some ["price asc"]⟩).2 = [] :=
  listInvoices_rejects_unknown_orderBy_field svcOk ⟨none, none, none, some ["price asc"]⟩
    ["price asc"] "price asc" rfl (by decide) (by decide)

/-- C3: a ListInvoices request with an orderBy clause whose first token is
`dueDate` but whose second token is neither `asc` nor `desc` (including a
missing second token) fails with an `InvalidRequest` error, and
`listInvoices` is never called. -/
theorem listInvoices_rejects_invalid_orderBy_direction (svc : InvoicesService)
    (query : ListQuery) (clauses : List String) (clause : String)
    (hq : query.orderBy = some clauses) (hmem : clause ∈ clauses)
    (hfield : (jsSplit clause ' ').headD "" = "dueDate")
    (ha : (jsSplit clause ' ')[1]? ≠ some "asc")
    (hd : (jsSplit clause ' ')[1]? ≠ some "desc") :
    (∃ e, (getInvoices svc query).1 = Except.error e ∧
        errorKind e = ErrorKind.invalidRequest) ∧
      (getInvoices svc query).2 = [] := by
  by_cases hv : validateListQuery query = true
  · have hclause := parseOrderByClause_bad_direction clause hfield ha hd
    obtain ⟨e, he⟩ := parseOrderBy_error_of_mem clauses clause hmem _ hclause
    have hkind := parseOrderBy_error_invalidRequest clauses e he
    have hparam : parseOrderByParam query.orderBy = .error e := by
      rw [hq]
      exact he
    simp only [getInvoices]
    rw [if_pos hv, hparam]
    exact ⟨⟨e, rfl, hkind⟩, rfl⟩
  · simp only [getInvoices]
    rw [if_neg hv]
    exact ⟨⟨.celebrateError, rfl, rfl⟩, rfl⟩

/-- Witness for C3 at the spec's example `orderBy=dueDate sideways`. -/
theorem listInvoices_rejects_invalid_orderBy_direction_witness :
    (∃ e, (getInvoices svcOk ⟨none, none, none, some ["dueDate sideways"]⟩).1 =
          Except.error e ∧
        errorKind e = ErrorKind.invalidRequest) ∧
      (getInvoices svcOk ⟨none, none, none, some ["dueDate sideways"]⟩).2 = [] :=
  listInvoices_rejects_invalid_orderBy_direction svcOk
    ⟨none, none, none, some ["dueDate sideways"]⟩ ["dueDate sideways"] "dueDate sideways"
    rfl (by decide) (by decide) (by decide) (by decide)

/-- C7: a CreateInvoice request with exactly one uploaded file calls
`createInvoice` with exactly that file's bytes and MIME type (and nothing
else), and when the service succeeds the handler answers 201 with the
invoice the service produced. -/
theorem createInvoice_single_file_delegates (svc : InvoicesService)
    (key : String) (invoiceFile : UploadedFile) :
    (postInvoices svc (some [(key, invoiceFile)])).2 =
        [ServiceCall.createInvoice ⟨⟨invoiceFile.data, invoiceFile.mimetype⟩⟩] ∧
      ∀ invoice : Invoice,
        svc.createInvoice ⟨⟨invoiceFile.data, invoiceFile.mimetype⟩⟩ = .ok invoice →
          (postInvoices svc (some [(key, invoiceFile)])).1 =
            .ok ⟨201, [], .invoiceJson invoice⟩ := by
  constructor
  · cases hc : svc.createInvoice ⟨⟨invoiceFile.data, invoiceFile.mimetype⟩⟩ with
    | ok invoice => simp [postInvoices, hc]
    | error e => simp [postInvoices, hc]
  · intro invoice hinv
    simp [postInvoices, hinv]

/-- Witness for C7 at a concrete single-file payload. -/
theorem createInvoice_single_file_delegates_witness :
    (postInvoices svcOk (some [("document", sampleFile)])).2 =
        [ServiceCall.createInvoice ⟨⟨sampleFile.data, sampleFile.mimetype⟩⟩] ∧
      (postInvoices svcOk (some [("document", sampleFile)])).1 =
        .ok ⟨201, [], .invoiceJson sampleInvoice⟩ :=
  ⟨(createInvoice_single_file_delegates svcOk "document" sampleFile).1,
   (createInvoice_single_file_delegates svcOk "document" sampleFile).2 sampleInvoice rfl⟩

/-- C4: for a DownloadInvoiceDocument request with a UUID-shaped
identifier, a service answer of no document file fails with `NotFound`,
and a document file whose MIME type has no extension mapping fails with
`InvalidState`; the absence check comes first in the handler, so the
`NotFound` outcome never depends on the MIME type. -/
theorem downloadInvoiceDocument_absent_and_unmappable (svc : InvoicesService)
    (invoiceId : String) (h : isUuid invoiceId = true) :
    (svc.downloadInvoiceDocumentFile invoiceId = .ok none →
        downloadInvoiceDocument svc invoiceId =
          (.error (.notFoundError ("Invoice " ++ invoiceId ++ " not found")),
           [.downloadInvoiceDocumentFile invoiceId]) ∧
          errorKind (.notFoundError ("Invoice " ++ invoiceId ++ " not found")) =
            ErrorKind.notFound) ∧
      ∀ doc : InvoiceDocument,
        svc.downloadInvoiceDocumentFile invoiceId = .ok (some doc) →
          mimeTypesExtension doc.mimeType = none →
            downloadInvoiceDocument svc invoiceId =
              (.error (.errorWithMessage
                  ("Invalid mimeType " ++ doc.mimeType ++ " for invoice " ++ invoiceId)),
               [.downloadInvoiceDocumentFile invoiceId]) ∧
              errorKind (.errorWithMessage
                  ("Invalid mimeType " ++ doc.mimeType ++ " for invoice " ++ invoiceId)) =
                ErrorKind.invalidState := by
  constructor
  · intro hs
    refine ⟨?_, rfl⟩
    simp [downloadInvoiceDocument, h, hs]
  · intro doc hs hm
    refine ⟨?_, rfl⟩
    simp [downloadInvoiceDocument, h, hs, hm]

/-- Witness for C4: an absent invoice yields `NotFound`, and a stored
document with an unmappable MIME type yields the `InvalidState` error. -/
theorem downloadInvoiceDocument_absent_and_unmappable_witness :
    (downloadInvoiceDocument svcEmpty sampleUuid =
        (.error (.notFoundError ("Invoice " ++ sampleUuid ++ " not found")),
         [.downloadInvoiceDocumentFile sampleUuid])) ∧
      (downloadInvoiceDocument svcUnknownMime sampleUuid =
        (.error (.errorWithMessage
            ("Invalid mimeType " ++ unknownMimeDocument.mimeType ++
             " for invoice " ++ sampleUuid)),
         [.downloadInvoiceDocumentFile sampleUuid])) :=
  ⟨((downloadInvoiceDocument_absent_and_unmappable svcEmpty sampleUuid (by decide)).1
      rfl).1,
   ((downloadInvoiceDocument_absent_and_unmappable svcUnknownMime sampleUuid (by decide)).2
      unknownMimeDocument rfl rfl).1⟩

/-- C5: a successful DownloadInvoiceDocument response carries exactly the
document's bytes, Content-Type equal to the document's MIME type,
Content-Length equal to the byte length, and Content-Disposition
`attachment; filename="<id>.<ext>"`; for `application/pdf` the extension
is `pdf`. -/
theorem downloadInvoiceDocument_success (svc : InvoicesService)
    (invoiceId : String) (doc : InvoiceDocument) (ext : String)
    (h : isUuid invoiceId = true)
    (hs : svc.downloadInvoiceDocumentFile invoiceId = .ok (some doc))
    (hext : mimeTypesExtension doc.mimeType = some ext) :
    downloadInvoiceDocument svc invoiceId =
      (.ok ⟨200,
          [("Content-Type", doc.mimeType),
           ("Content-Length", toString doc.content.length),
           ("Content-Disposition",
            "attachment; filename=\"" ++ invoiceId ++ "." ++ ext ++ "\"")],
          .bytes doc.content⟩,
       [.downloadInvoiceDocumentFile invoiceId]) ∧
      mimeTypesExtension "application/pdf" = some "pdf" := by
  refine ⟨?_, rfl⟩
  simp [downloadInvoiceDocument, h, hs, hext]

/-- Witness for C5 at a concrete PDF document. -/
theorem downloadInvoiceDocument_success_witness :
    downloadInvoiceDocument svcOk sampleUuid =
      (.ok ⟨200,
          [("Content-Type", pdfDocument.mimeType),
           ("Content-Length", toString pdfDocument.content.length),
           ("Content-Disposition",
            "attachment; filename=\"" ++ sampleUuid ++ "." ++ "pdf" ++ "\"")],
          .bytes pdfDocument.content⟩,
       [.downloadInvoiceDocumentFile sampleUuid]) ∧
      mimeTypesExtension "application/pdf" = some "pdf" :=
  downloadInvoiceDocument_success svcOk sampleUuid pdfDocument "pdf" (by decide) rfl rfl

/-- C6: a GetInvoiceById request with a UUID-shaped identifier for which
the service returns no invoice fails with exactly the `NotFound` error. -/
theorem getInvoiceById_absent_notFound (svc : InvoicesService) (invoiceId : String)
    (h : isUuid invoiceId = true) (hs : svc.getInvoiceById invoiceId = .ok none) :
    getInvoiceByIdRoute svc invoiceId =
      (.error (.notFoundError ("Invoice " ++ invoiceId ++ " not found")),
       [.getInvoiceById invoiceId]) ∧
      errorKind (.notFoundError ("Invoice " ++ invoiceId ++ " not found")) =
        ErrorKind.notFound := by
  refine ⟨?_, rfl⟩
  simp [getInvoiceByIdRoute, h, hs]

/-- Witness for C6 at a concrete absent UUID. -/
theorem getInvoiceById_absent_notFound_witness :
    getInvoiceByIdRoute svcEmpty sampleUuid =
      (.error (.notFoundError ("Invoice " ++ sampleUuid ++ " not found")),
       [.getInvoiceById sampleUuid]) ∧
      errorKind (.notFoundError ("Invoice " ++ sampleUuid ++ " not found")) =
        ErrorKind.notFound :=
  getInvoiceById_absent_notFound svcEmpty sampleUuid (by decide) rfl

/-- C8: an UpdateInvoiceStatus request whose body passes validation
(status absent or an enumerated value) delegates to `updateInvoice` with
the given identifier and the possibly-absent status as its only
collaborator call — no existence check first — and returns the service's
invoice; the empty body passes validation. -/
theorem updateInvoice_delegates (svc : InvoicesService) (invoiceId : String)
    (body : PatchBody) (h : validatePatchBody body = true) :
    (patchInvoice svc invoiceId body).2 =
        [ServiceCall.updateInvoice invoiceId ⟨body.status⟩] ∧
      (∀ invoice : Invoice,
        svc.updateInvoice invoiceId ⟨body.status⟩ = .ok invoice →
          (patchInvoice svc invoiceId body).1 = .ok ⟨200, [], .invoiceJson invoice⟩) ∧
      validatePatchBody ⟨none⟩ = true := by
  refine ⟨?_, ?_, rfl⟩
  · cases hc : svc.updateInvoice invoiceId ⟨body.status⟩ with
    | ok invoice => simp [patchInvoice, h, hc]
    | error e => simp [patchInvoice, h, hc]
  · intro invoice hinv
    simp [patchInvoice, h, hinv]

/-- Witness for C8 at the empty body. -/
theorem updateInvoice_delegates_witness :
    (patchInvoice svcOk sampleUuid ⟨none⟩).2 =
        [ServiceCall.updateInvoice sampleUuid ⟨(⟨none⟩ : PatchBody).status⟩] ∧
      (patchInvoice svcOk sampleUuid ⟨none⟩).1 = .ok ⟨200, [], .invoiceJson sampleInvoice⟩ ∧
      validatePatchBody ⟨none⟩ = true :=
  ⟨(updateInvoice_delegates svcOk sampleUuid ⟨none⟩ rfl).1,
   (updateInvoice_delegates svcOk sampleUuid ⟨none⟩ rfl).2.1 sampleInvoice rfl,
   (updateInvoice_delegates svcOk sampleUuid ⟨none⟩ rfl).2.2⟩

/-- C9: on every route, an error raised by the collaborator call is
propagated unchanged as the handler's outcome (no transformation, no
retry, no swallowing), and the trace shows no further collaborator call
after the failing one. -/
theorem collaborator_errors_propagate (svc : InvoicesService) (e : ThrownError) :
    (∀ (key : String) (invoiceFile : UploadedFile),
        svc.createInvoice ⟨⟨invoiceFile.data, invoiceFile.mimetype⟩⟩ = .error e →
          postInvoices svc (some [(key, invoiceFile)]) =
            (.error e, [.createInvoice ⟨⟨invoiceFile.data, invoiceFile.mimetype⟩⟩])) ∧
      (∀ (query : ListQuery) (orderBy : List OrderBy),
        validateListQuery query = true →
          parseOrderByParam query.orderBy = .ok orderBy →
            svc.listInvoices ⟨query.ids, query.statuses, query.vendorIds, orderBy⟩ =
                .error e →
              getInvoices svc query =
                (.error e,
                 [.listInvoices ⟨query.ids, query.statuses, query.vendorIds, orderBy⟩])) ∧
      (svc.listCurrencies = .error e →
        getCurrencies svc = (.error e, [.listCurrencies])) ∧
      (∀ invoiceId : String, isUuid invoiceId = true →
        svc.getInvoiceById invoiceId = .error e →
          getInvoiceByIdRoute svc invoiceId = (.error e, [.getInvoiceById invoiceId])) ∧
      (∀ invoiceId : String, isUuid invoiceId = true →
        svc.downloadInvoiceDocumentFile invoiceId = .error e →
          downloadInvoiceDocument svc invoiceId =
            (.error e, [.downloadInvoiceDocumentFile invoiceId])) ∧
      (∀ (invoiceId : String) (body : PatchBody), validatePatchBody body = true →
        svc.updateInvoice invoiceId ⟨body.status⟩ = .error e →
          patchInvoice svc invoiceId body =
            (.error e, [.updateInvoice invoiceId ⟨body.status⟩])) := by
  refine ⟨?_, ?_, ?_, ?_, ?_, ?_⟩
  · intro key invoiceFile hc
    simp [postInvoices, hc]
  · intro query orderBy hv hp hc
    simp [getInvoices, hv, hp, hc]
  · intro hc
    simp [getCurrencies, hc]
  · intro invoiceId hu hc
    simp [getInvoiceByIdRoute, hu, hc]
  · intro invoiceId hu hc
    simp [downloadInvoiceDocument, hu, hc]
  · intro invoiceId body hb hc
    simp [patchInvoice, hb, hc]

/-- Witness for C9: with a service whose every call fails with `boomError`,
each route propagates exactly that error after its single call. -/
theorem collaborator_errors_propagate_witness :
    postInvoices svcFail (some [("document", sampleFile)]) =
        (.error boomError, [.createInvoice ⟨⟨sampleFile.data, sampleFile.mimetype⟩⟩]) ∧
      getInvoices svcFail ⟨none, none, none, none⟩ =
        (.error boomError, [.listInvoices ⟨none, none, none, []⟩]) ∧
      getCurrencies svcFail = (.error boomError, [.listCurrencies]) ∧
      getInvoiceByIdRoute svcFail sampleUuid =
        (.error boomError, [.getInvoiceById sampleUuid]) ∧
      downloadInvoiceDocument svcFail sampleUuid =
        (.error boomError, [.downloadInvoiceDocumentFile sampleUuid]) ∧
      patchInvoice svcFail sampleUuid ⟨none⟩ =
        (.error boomError, [.updateInvoice sampleUuid ⟨(⟨none⟩ : PatchBody).status⟩]) := by
  obtain ⟨h1, h2, h3, h4, h5, h6⟩ := collaborator_errors_propagate svcFail boomError
  exact ⟨h1 "document" sampleFile rfl,
    h2 ⟨none, none, none, none⟩ [] rfl rfl rfl,
    h3 rfl,
    h4 sampleUuid (by decide) rfl,
    h5 sampleUuid (by decide) rfl,
    h6 sampleUuid ⟨none⟩ rfl rfl⟩

/-- C10: unlike `GET /:invoiceId` and `GET /:invoiceId/download`, the
PATCH route has no parameter schema: any identifier string with a valid
body is forwarded verbatim to `updateInvoice`, while the two GET routes
reject a non-UUID identifier before calling the service. -/
theorem patchInvoice_skips_uuid_validation (svc : InvoicesService)
    (invoiceId : String) (body : PatchBody) (h : validatePatchBody body = true) :
    (patchInvoice svc invoiceId body).2 =
        [ServiceCall.updateInvoice invoiceId ⟨body.status⟩] ∧
      (isUuid invoiceId = false →
        getInvoiceByIdRoute svc invoiceId = (.error .celebrateError, []) ∧
          downloadInvoiceDocument svc invoiceId = (.error .celebrateError, [])) := by
  constructor
  · cases hc : svc.updateInvoice invoiceId ⟨body.status⟩ with
    | ok invoice => simp [patchInvoice, h, hc]
    | error e => simp [patchInvoice, h, hc]
  · intro hu
    constructor
    · simp [getInvoiceByIdRoute, hu]
    · simp [downloadInvoiceDocument, hu]

/-- Witness for C10 at the non-UUID identifier `not-a-uuid`. -/
theorem patchInvoice_skips_uuid_validation_witness :
    (patchInvoice svcOk "not-a-uuid" ⟨none⟩).2 =
        [ServiceCall.updateInvoice "not-a-uuid" ⟨(⟨none⟩ : PatchBody).status⟩] ∧
      (getInvoiceByIdRoute svcOk "not-a-uuid" = (.error .celebrateError, []) ∧
        downloadInvoiceDocument svcOk "not-a-uuid" = (.error .celebrateError, [])) :=
  ⟨(patchInvoice_skips_uuid_validation svcOk "not-a-uuid" ⟨none⟩ rfl).1,
   (patchInvoice_skips_uuid_validation svcOk "not-a-uuid" ⟨none⟩ rfl).2 (by decide)⟩
